import Mathlib

set_option autoImplicit false

namespace Rmaps

/-!
Shallow embedding of the room-sync core of `src/lib/c3nav.ts` (the
`RoomSync` WebSocket prototype) and of the Automerge prototype
(`RoomDocument` and its helpers).  JavaScript `Record<string, T>`
objects are modelled as association lists with in-place overwrite
(`setKey`), ISO timestamp strings produced by `new Date().toISOString()`
as natural numbers (the code only ever stores and copies them), and
floating-point coordinates as integers (the code only ever stores and
copies them as well).  The wall clock is passed explicitly as a `now`
argument to every operation that calls `new Date()`.
-/

/-- JS object property write `o[k] = v`: overwrite the entry in place when
the key exists, otherwise append it. -/
def setKey {α : Type} : List (String × α) → String → α → List (String × α)
  | [], k, v => [(k, v)]
  | (k', v') :: rest, k, v =>
    if k' = k then (k, v) :: rest else (k', v') :: setKey rest k v

/-- JS object property read `o[k]`. -/
def getKey {α : Type} : List (String × α) → String → Option α
  | [], _ => none
  | (k', v') :: rest, k => if k' = k then some v' else getKey rest k

/-- JS `delete o[k]`. -/
def delKey {α : Type} (l : List (String × α)) (k : String) : List (String × α) :=
  l.filter (fun p => p.1 != k)

/-- Indoor sub-position of a `LocationState` (`{level, x, y, spaceName?}`). -/
structure IndoorPosition where
  level : Int
  x : Int
  y : Int
  spaceName : Option String
deriving DecidableEq

/-- `LocationState` from `c3nav.ts`. -/
structure LocationState where
  latitude : Int
  longitude : Int
  accuracy : Int
  altitude : Option Int
  heading : Option Int
  speed : Option Int
  timestamp : Nat
  source : String
  indoor : Option IndoorPosition
deriving DecidableEq

/-- `ParticipantState` from `c3nav.ts`. -/
structure ParticipantState where
  id : String
  name : String
  emoji : String
  color : String
  joinedAt : Nat
  lastSeen : Nat
  status : String
  location : Option LocationState
deriving DecidableEq

/-- `WaypointState` from `c3nav.ts`; its `indoor` field has no space name
in the source, so the `spaceName` component is simply `none` there. -/
structure WaypointState where
  id : String
  name : String
  emoji : Option String
  latitude : Int
  longitude : Int
  indoor : Option IndoorPosition
  createdBy : String
  createdAt : Nat
  type : String
deriving DecidableEq

/-- `RoomState` from `c3nav.ts`: the replicated room state. -/
structure RoomState where
  id : String
  slug : String
  name : String
  createdAt : Nat
  participants : List (String × ParticipantState)
  waypoints : List WaypointState
deriving DecidableEq

/-- `SyncMessage` from `c3nav.ts`.  The `location` payload is an `Option`
because `clearLocation` broadcasts a `null` location. -/
inductive SyncMessage where
  | join (participant : ParticipantState)
  | leave (participantId : String)
  | location (participantId : String) (location : Option LocationState)
  | status (participantId : String) (status : String)
  | waypoint_add (waypoint : WaypointState)
  | waypoint_remove (waypointId : String)
  | full_state (state : RoomState)
  | request_state
deriving DecidableEq

/-- `RoomSync.handleMessage`: apply one incoming sync message to the local
room state.  `selfId` is the session's own `participantId` (used by the
`full_state` case to re-insert the local participant) and `now` is the
value of `new Date().toISOString()` at handling time. -/
def handleMessage (selfId : String) (now : Nat) (message : SyncMessage)
    (s : RoomState) : RoomState :=
  match message with
  | .full_state st =>
    match getKey s.participants selfId with
    | some myParticipant =>
      { st with participants := setKey st.participants selfId myParticipant }
    | none => st
  | .join participant =>
    { s with participants := setKey s.participants participant.id participant }
  | .leave participantId =>
    { s with participants := delKey s.participants participantId }
  | .location participantId location =>
    match getKey s.participants participantId with
    | some p =>
      let q : ParticipantState := { p with location := location, lastSeen := now }
      { s with participants := setKey s.participants participantId q }
    | none => s
  | .status participantId status =>
    match getKey s.participants participantId with
    | some p =>
      let q : ParticipantState := { p with status := status, lastSeen := now }
      { s with participants := setKey s.participants participantId q }
    | none => s
  | .waypoint_add waypoint =>
    { s with waypoints := s.waypoints ++ [waypoint] }
  | .waypoint_remove waypointId =>
    { s with waypoints := s.waypoints.filter (fun w => w.id != waypointId) }
  | .request_state => s

/-- A `RoomSync` session: its local state, whether the WebSocket is
currently open (`this.ws?.readyState === WebSocket.OPEN`), and the list of
messages actually transmitted over the socket so far. -/
structure RoomSync where
  slug : String
  participantId : String
  state : RoomState
  connected : Bool
  outbox : List SyncMessage
deriving DecidableEq

/-- `RoomSync.send`: a message is transmitted only when the socket is
open; otherwise it is silently discarded. -/
def send (rs : RoomSync) (message : SyncMessage) : RoomSync :=
  if rs.connected then { rs with outbox := rs.outbox ++ [message] } else rs

/-- `ws.onclose`: the session marks itself disconnected (the reconnect
timer itself is not modelled; its firing re-runs `connect`, whose
`onopen` is `onOpen` below). -/
def onClose (rs : RoomSync) : RoomSync := { rs with connected := false }

/-- `ws.onopen` inside `RoomSync.connect`: the session is connected again
and immediately sends `request_state`; nothing else is transmitted. -/
def onOpen (rs : RoomSync) : RoomSync :=
  send { rs with connected := true } .request_state

/-- `RoomSync.join`. -/
def join (rs : RoomSync) (participant : ParticipantState) : RoomSync :=
  send { rs with state := { rs.state with
    participants := setKey rs.state.participants participant.id participant } }
    (.join participant)

/-- `RoomSync.updateLocation`. -/
def updateLocation (rs : RoomSync) (now : Nat) (location : LocationState) :
    RoomSync :=
  match getKey rs.state.participants rs.participantId with
  | some p =>
    let q : ParticipantState :=
      { p with location := some location, lastSeen := now }
    let rs' : RoomSync := { rs with state := { rs.state with
      participants := setKey rs.state.participants rs.participantId q } }
    send rs' (.location rs.participantId (some location))
  | none => rs

/-- `RoomSync.clearLocation` (`delete ...location` then a `null` location
broadcast). -/
def clearLocation (rs : RoomSync) (now : Nat) : RoomSync :=
  match getKey rs.state.participants rs.participantId with
  | some p =>
    let q : ParticipantState := { p with location := none, lastSeen := now }
    let rs' : RoomSync := { rs with state := { rs.state with
      participants := setKey rs.state.participants rs.participantId q } }
    send rs' (.location rs.participantId none)
  | none => rs

/-- `RoomSync.updateStatus`. -/
def updateStatus (rs : RoomSync) (now : Nat) (status : String) : RoomSync :=
  match getKey rs.state.participants rs.participantId with
  | some p =>
    let q : ParticipantState := { p with status := status, lastSeen := now }
    let rs' : RoomSync := { rs with state := { rs.state with
      participants := setKey rs.state.participants rs.participantId q } }
    send rs' (.status rs.participantId status)
  | none => rs

/-- The `{level, x, y}` argument of `RoomSync.updateIndoorPosition`. -/
structure IndoorTriple where
  level : Int
  x : Int
  y : Int
deriving DecidableEq

/-- The location value computed inside `RoomSync.updateIndoorPosition`:
`existingLocation || {latitude: 0, ...}`, then the indoor triple,
timestamp and source are overwritten. -/
def indoorUpdatedLocation (now : Nat) (indoor : IndoorTriple)
    (existing : Option LocationState) : LocationState :=
  let base : LocationState :=
    match existing with
    | some existingLocation => existingLocation
    | none =>
      { latitude := 0, longitude := 0, accuracy := 0, altitude := none,
        heading := none, speed := none, timestamp := now,
        source := "manual", indoor := none }
  { base with
      indoor := some { level := indoor.level, x := indoor.x,
                       y := indoor.y, spaceName := none },
      timestamp := now, source := "manual" }

/-- `RoomSync.updateIndoorPosition`: reuse the existing location or
fabricate a zeroed manual one, then overwrite its indoor triple,
timestamp and source. -/
def updateIndoorPosition (rs : RoomSync) (now : Nat) (indoor : IndoorTriple) :
    RoomSync :=
  match getKey rs.state.participants rs.participantId with
  | some p =>
    let location : LocationState :=
      indoorUpdatedLocation now indoor p.location
    let q : ParticipantState :=
      { p with location := some location, lastSeen := now }
    let rs' : RoomSync := { rs with state := { rs.state with
      participants := setKey rs.state.participants rs.participantId q } }
    send rs' (.location rs.participantId (some location))
  | none => rs

/-- `RoomSync.addWaypoint`. -/
def addWaypoint (rs : RoomSync) (waypoint : WaypointState) : RoomSync :=
  send { rs with state := { rs.state with
      waypoints := rs.state.waypoints ++ [waypoint] } }
    (.waypoint_add waypoint)

/-- `RoomSync.removeWaypoint`. -/
def removeWaypoint (rs : RoomSync) (waypointId : String) : RoomSync :=
  send { rs with state := { rs.state with
      waypoints := rs.state.waypoints.filter (fun w => w.id != waypointId) } }
    (.waypoint_remove waypointId)

/-- `RoomSync.createInitialState`: `freshId` stands for the
`crypto.randomUUID()` result and `now` for the creation instant. -/
def createInitialState (slug freshId : String) (now : Nat) : RoomState :=
  { id := freshId, slug := slug, name := slug, createdAt := now,
    participants := [], waypoints := [] }

/-- `RoomSync.loadState`: reading `localStorage` may throw
(`read = .error`), the entry may be absent (`.ok none`), or `JSON.parse`
may throw (`parse stored = .error`); every failure is caught by the
surrounding `try`/`catch` and collapses to `none`. -/
def loadState (read : Except Unit (Option String))
    (parse : String → Except Unit RoomState) : Option RoomState :=
  match read with
  | .error _ => none
  | .ok none => none
  | .ok (some stored) =>
    match parse stored with
    | .error _ => none
    | .ok st => some st

/-- The constructor line
`this.state = this.loadState() || this.createInitialState()`. -/
def initialSessionState (slug freshId : String) (now : Nat)
    (read : Except Unit (Option String))
    (parse : String → Except Unit RoomState) : RoomState :=
  match loadState read parse with
  | some st => st
  | none => createInitialState slug freshId now

/-- `privacySettings` of a `RoomDocument` participant. -/
structure PrivacySettings where
  sharingEnabled : Bool
  defaultPrecision : String
  showIndoorFloor : Bool
  ghostMode : Bool
deriving DecidableEq

/-- A participant entry of the Automerge `RoomDocument`. -/
structure DocParticipant where
  id : String
  name : String
  emoji : String
  color : String
  joinedAt : Nat
  lastSeen : Nat
  status : String
  location : Option LocationState
  privacySettings : PrivacySettings
deriving DecidableEq

/-- `settings` of the Automerge `RoomDocument`. -/
structure RoomSettings where
  maxParticipants : Nat
  defaultPrecision : String
  allowGuestJoin : Bool
  showC3NavIndoor : Bool
  eventId : Option String
deriving DecidableEq

/-- Waypoint location of the Automerge `RoomDocument`. -/
structure DocWaypointLocation where
  latitude : Int
  longitude : Int
  indoor : Option IndoorTriple
deriving DecidableEq

/-- A waypoint entry of the Automerge `RoomDocument`. -/
structure DocWaypoint where
  id : String
  name : String
  emoji : Option String
  location : DocWaypointLocation
  createdBy : String
  createdAt : Nat
  type : String
deriving DecidableEq

/-- The Automerge `RoomDocument` schema. -/
structure RoomDocument where
  id : String
  slug : String
  name : String
  createdAt : Nat
  createdBy : String
  settings : RoomSettings
  participants : List (String × DocParticipant)
  waypoints : List DocWaypoint
deriving DecidableEq

/-- `addParticipant` from the Automerge prototype:
`doc.participants[participant.id] = participant`, with no capacity
check of any kind. -/
def addParticipant (doc : RoomDocument) (participant : DocParticipant) :
    RoomDocument :=
  { doc with participants := setKey doc.participants participant.id participant }

/-! ### Helper lemmas about the JS-object model -/

theorem getKey_setKey_self {α : Type} (l : List (String × α)) (k : String)
    (v : α) : getKey (setKey l k v) k = some v := by
  induction l with
  | nil => simp [setKey, getKey]
  | cons hd tl ih =>
    obtain ⟨k', v'⟩ := hd
    by_cases h : k' = k
    · simp [setKey, getKey, h]
    · simp [setKey, getKey, h, ih]

theorem setKey_setKey {α : Type} (l : List (String × α)) (k : String)
    (v v' : α) : setKey (setKey l k v) k v' = setKey l k v' := by
  induction l with
  | nil => simp [setKey]
  | cons hd tl ih =>
    obtain ⟨k'', w⟩ := hd
    by_cases h : k'' = k
    · simp [setKey, h]
    · simp [setKey, h, ih]

theorem setKey_of_getKey_eq {α : Type} (l : List (String × α)) (k : String)
    (v : α) (h : getKey l k = some v) : setKey l k v = l := by
  induction l with
  | nil => simp [getKey] at h
  | cons hd tl ih =>
    obtain ⟨k', w⟩ := hd
    by_cases hk : k' = k
    · simp [getKey, hk] at h
      simp [setKey, hk, h]
    · simp [getKey, hk] at h
      simp [setKey, hk, ih h]

theorem filter_filter_self {α : Type} (p : α → Bool) (l : List α) :
    (l.filter p).filter p = l.filter p := by
  induction l with
  | nil => rfl
  | cons hd tl ih =>
    cases hp : p hd <;> simp [List.filter_cons, hp, ih]

theorem waypoint_any_filter (l : List WaypointState) (k : String) :
    ((l.filter (fun w => w.id != k)).any (fun w => w.id == k)) = false := by
  induction l with
  | nil => rfl
  | cons hd tl ih =>
    by_cases h : hd.id = k
    · simp [List.filter_cons, h, ih]
    · simp [List.filter_cons, h, ih]

theorem send_state (rs : RoomSync) (message : SyncMessage) :
    (send rs message).state = rs.state := by
  unfold send
  split <;> rfl

theorem send_outbox_of_not_connected (rs : RoomSync) (message : SyncMessage)
    (h : rs.connected = false) : (send rs message).outbox = rs.outbox := by
  simp [send, h]

/-! ### Concrete sample data used by counterexamples and witnesses -/

/-- A waypoint with id `w1`, as in the spec scenario. -/
def waypointW1 : WaypointState :=
  { id := "w1", name := "Food court", emoji := none, latitude := 53,
    longitude := 9, indoor := none, createdBy := "p1", createdAt := 5,
    type := "meetup" }

/-- A room with no participants and no waypoints. -/
def emptyRoom : RoomState :=
  { id := "r1", slug := "38c3-crew", name := "38c3-crew", createdAt := 0,
    participants := [], waypoints := [] }

/-- Participant `p1`, with no location yet. -/
def participantP1 : ParticipantState :=
  { id := "p1", name := "A", emoji := "a", color := "#10b981",
    joinedAt := 0, lastSeen := 5, status := "online", location := none }

/-- Participant `p2`. -/
def participantP2 : ParticipantState :=
  { id := "p2", name := "B", emoji := "b", color := "#6366f1",
    joinedAt := 1, lastSeen := 1, status := "online", location := none }

/-- A room whose registry holds exactly `p1`. -/
def roomWithP1 : RoomState :=
  { id := "r1", slug := "38c3-crew", name := "38c3-crew", createdAt := 0,
    participants := [("p1", participantP1)], waypoints := [] }

/-- A location observation with timestamp 1. -/
def locT1 : LocationState :=
  { latitude := 53, longitude := 9, accuracy := 5, altitude := none,
    heading := none, speed := none, timestamp := 1, source := "gps",
    indoor := none }

/-- A location observation with timestamp 2. -/
def locT2 : LocationState :=
  { latitude := 54, longitude := 10, accuracy := 4, altitude := none,
    heading := none, speed := none, timestamp := 2, source := "gps",
    indoor := none }

/-- A connected session for `p1` in `roomWithP1`, nothing sent yet. -/
def sessionP1 : RoomSync :=
  { slug := "38c3-crew", participantId := "p1", state := roomWithP1,
    connected := true, outbox := [] }

/-- `true` exactly on `waypoint_add` messages. -/
def isWaypointAdd : SyncMessage → Bool
  | .waypoint_add _ => true
  | _ => false

/-- `true` exactly on `location` messages. -/
def isLocationMessage : SyncMessage → Bool
  | .location _ _ => true
  | _ => false

/-! ### C1: waypoint add/remove for the same id -/

/-- C1 (counterexample): the claim says applying `waypoint_add{id=X}` and
`waypoint_remove{id=X}` in either order leaves X absent.  Applying the
remove first and the add second to the empty room leaves waypoint `w1`
present, so the claim is false as stated. -/
theorem c1_remove_then_add_present :
    ((handleMessage "p1" 6 (.waypoint_add waypointW1)
        (handleMessage "p1" 6 (.waypoint_remove "w1") emptyRoom)).waypoints.any
      (fun w => w.id == "w1")) = true := by decide

/-- C1 (amended): the handler applies waypoint operations in arrival
order, so `waypoint_add{id=X}` followed by `waypoint_remove{id=X}` yields
X absent, while `waypoint_remove{id=X}` followed by `waypoint_add{id=X}`
leaves X present — removal does not win ties. -/
theorem c1_waypoint_order_dependent (selfId : String) (now now' : Nat)
    (s : RoomState) (w : WaypointState) :
    ((handleMessage selfId now' (.waypoint_remove w.id)
        (handleMessage selfId now (.waypoint_add w) s)).waypoints.any
      (fun x => x.id == w.id)) = false ∧
    ((handleMessage selfId now' (.waypoint_add w)
        (handleMessage selfId now (.waypoint_remove w.id) s)).waypoints.any
      (fun x => x.id == w.id)) = true := by
  constructor
  · simp only [handleMessage]
    exact waypoint_any_filter (s.waypoints ++ [w]) w.id
  · simp [handleMessage]

/-! ### C2: location updates and timestamps -/

/-- C2 (counterexample): the claim says two location messages for `p1`
with timestamps 1 < 2 yield the timestamp-2 value in either application
order.  Applying the timestamp-2 message first and the timestamp-1
message second leaves the timestamp-1 value, so the claim is false as
stated. -/
theorem c2_older_overwrites_newer :
    locT1.timestamp < locT2.timestamp ∧ locT1 ≠ locT2 ∧
    ((getKey (handleMessage "me" 20 (.location "p1" (some locT1))
        (handleMessage "me" 10 (.location "p1" (some locT2))
          roomWithP1)).participants "p1").map (fun q => q.location))
      = some (some locT1) := by decide

/-- C2 (amended): the `location` handler overwrites the participant's
location with the message's value unconditionally — the location's own
timestamp is never consulted — so the merged state reflects the
last-applied message.  In particular, applying the t1 message first and
the t2 message second yields the t2 value; the opposite order yields t1. -/
theorem c2_last_applied_location_wins (selfId pid : String)
    (now1 now2 : Nat) (s : RoomState) (p : ParticipantState)
    (loc1 loc2 : LocationState)
    (h : getKey s.participants pid = some p) :
    ((getKey (handleMessage selfId now2 (.location pid (some loc2))
        (handleMessage selfId now1 (.location pid (some loc1))
          s)).participants pid).map (fun q => q.location))
      = some (some loc2) := by
  simp [handleMessage, h, getKey_setKey_self]

/-- C2 (witness): instantiating the amended theorem at `roomWithP1` with
the t1 message applied first. -/
theorem c2_last_applied_location_wins_witness :
    ((getKey (handleMessage "me" 20 (.location "p1" (some locT2))
        (handleMessage "me" 10 (.location "p1" (some locT1))
          roomWithP1)).participants "p1").map (fun q => q.location))
      = some (some locT2) :=
  c2_last_applied_location_wins "me" "p1" 10 20 roomWithP1 participantP1
    locT1 locT2 (by decide)

/-! ### C3: idempotence of message application -/

/-- C3 (counterexample): the claim says applying any change message twice
equals applying it once, including `waypoint_add`.  Applying the same
`waypoint_add` twice to the empty room appends the waypoint twice, so the
claim is false as stated. -/
theorem c3_waypoint_add_not_idempotent :
    handleMessage "me" 7 (.waypoint_add waypointW1)
        (handleMessage "me" 7 (.waypoint_add waypointW1) emptyRoom)
      ≠ handleMessage "me" 7 (.waypoint_add waypointW1) emptyRoom := by decide

/-- C3 (amended): applying the same message twice (at the same clock
reading) equals applying it once for every message type except
`waypoint_add`, which appends a duplicate waypoint entry. -/
theorem c3_idempotent_except_waypoint_add (selfId : String) (now : Nat)
    (message : SyncMessage) (s : RoomState)
    (h : isWaypointAdd message = false) :
    handleMessage selfId now message (handleMessage selfId now message s)
      = handleMessage selfId now message s := by
  cases message with
  | join p => simp [handleMessage, setKey_setKey]
  | leave pid => simp [handleMessage, delKey, filter_filter_self]
  | location pid loc =>
    cases hq : getKey s.participants pid with
    | none => simp [handleMessage, hq]
    | some p => simp [handleMessage, hq, getKey_setKey_self, setKey_setKey]
  | status pid st =>
    cases hq : getKey s.participants pid with
    | none => simp [handleMessage, hq]
    | some p => simp [handleMessage, hq, getKey_setKey_self, setKey_setKey]
  | waypoint_add w => exact absurd h (by simp [isWaypointAdd])
  | waypoint_remove wid => simp [handleMessage, filter_filter_self]
  | full_state st =>
    cases hq : getKey s.participants selfId with
    | some myP => simp [handleMessage, hq, getKey_setKey_self]
    | none =>
      cases hr : getKey st.participants selfId with
      | none => simp [handleMessage, hq, hr]
      | some q =>
        simp [handleMessage, hq, hr, setKey_of_getKey_eq _ _ _ hr]
  | request_state => rfl

/-- C3 (witness): instantiating the amended theorem at a concrete
`waypoint_remove` message on the empty room. -/
theorem c3_idempotent_witness :
    handleMessage "me" 7 (.waypoint_remove "w1")
        (handleMessage "me" 7 (.waypoint_remove "w1") emptyRoom)
      = handleMessage "me" 7 (.waypoint_remove "w1") emptyRoom :=
  c3_idempotent_except_waypoint_add "me" 7 (.waypoint_remove "w1")
    emptyRoom (by decide)

/-! ### C4: the `maxParticipants` capacity cap -/

/-- A `RoomDocument` participant with the default privacy settings the
source always uses. -/
def mkDocParticipant (pid : String) : DocParticipant :=
  { id := pid, name := pid, emoji := "x", color := "#10b981",
    joinedAt := 0, lastSeen := 0, status := "online", location := none,
    privacySettings := { sharingEnabled := true, defaultPrecision := "exact",
                         showIndoorFloor := true, ghostMode := false } }

/-- A room document at its declared capacity: `maxParticipants = 10` and
ten registered participants. -/
def fullRoomDoc : RoomDocument :=
  { id := "r1", slug := "38c3-crew", name := "38c3-crew", createdAt := 0,
    createdBy := "p1",
    settings := { maxParticipants := 10, defaultPrecision := "exact",
                  allowGuestJoin := true, showC3NavIndoor := true,
                  eventId := none },
    participants :=
      ["p1", "p2", "p3", "p4", "p5", "p6", "p7", "p8", "p9", "p10"].map
        (fun pid => (pid, mkDocParticipant pid)),
    waypoints := [] }

/-- C4 (counterexample): the claim says an 11th join into a room with
`maxParticipants = 10` and ten registered participants is rejected.  No
code path checks the cap: `addParticipant` inserts the 11th participant
and the registry grows to 11 entries. -/
theorem c4_eleventh_join_accepted :
    fullRoomDoc.settings.maxParticipants = 10 ∧
    fullRoomDoc.participants.length = 10 ∧
    getKey (addParticipant fullRoomDoc (mkDocParticipant "p11")).participants
        "p11" = some (mkDocParticipant "p11") ∧
    (addParticipant fullRoomDoc (mkDocParticipant "p11")).participants.length
      = 11 := by
  exact ⟨rfl, rfl, by decide, rfl⟩

/-- C4 (amended): joins are merged unconditionally — neither the
Automerge `addParticipant` nor the `join` message handler consults
`maxParticipants` (the `RoomSync` state does not even carry settings), so
a join beyond the cap is merged into the registry rather than rejected. -/
theorem c4_join_ignores_cap (doc : RoomDocument)
    (participant : DocParticipant) (selfId : String) (now : Nat)
    (s : RoomState) (q : ParticipantState) :
    getKey (addParticipant doc participant).participants participant.id
        = some participant ∧
    getKey (handleMessage selfId now (.join q) s).participants q.id
        = some q := by
  constructor
  · exact getKey_setKey_self doc.participants participant.id participant
  · simp [handleMessage, getKey_setKey_self]

/-! ### C5: offline mutations are not queued or resent -/

/-- C5 (counterexample): the claim says each outbound mutation made while
disconnected is queued and resent after reconnection.  Starting from the
connected session `sessionP1`, disconnecting, updating the location, then
the status, then adding a waypoint, and reconnecting leaves all three
edits in the local state, but the transcript of transmitted messages ends
as `[request_state]` alone — no `location`, `status` or `waypoint_add`
message was ever transmitted: the edits were silently dropped, never
queued, and nothing but `request_state` is sent on reconnect. -/
theorem c5_offline_update_never_sent :
    ((getKey (addWaypoint (updateStatus (updateLocation (onClose sessionP1)
          12 locT2) 13 "away") waypointW1).state.participants "p1").map
        (fun q => (q.location, q.status)))
      = some (some locT2, "away") ∧
    (addWaypoint (updateStatus (updateLocation (onClose sessionP1)
        12 locT2) 13 "away") waypointW1).state.waypoints = [waypointW1] ∧
    (onOpen (addWaypoint (updateStatus (updateLocation (onClose sessionP1)
        12 locT2) 13 "away") waypointW1)).outbox
      = [SyncMessage.request_state] ∧
    ((onOpen (addWaypoint (updateStatus (updateLocation (onClose sessionP1)
        12 locT2) 13 "away") waypointW1)).outbox.any
      isLocationMessage) = false := by decide

/-- C5 (amended): while disconnected, each outbound mutation — location
update, location clear, status change, indoor-position update, waypoint
add and waypoint remove — still updates the local state optimistically,
but its message is silently discarded by `send` rather than queued, and
upon reconnection after such dropped mutations only `request_state` is
transmitted — the dropped edits are never resent to the relay or peers. -/
theorem c5_disconnected_sends_dropped (rs : RoomSync) (now : Nat)
    (location : LocationState) (status : String) (indoor : IndoorTriple)
    (w : WaypointState) (wid : String) (p : ParticipantState)
    (hconn : rs.connected = false)
    (hp : getKey rs.state.participants rs.participantId = some p) :
    ((updateLocation rs now location).outbox = rs.outbox ∧
      getKey (updateLocation rs now location).state.participants
          rs.participantId
        = some { p with location := some location, lastSeen := now }) ∧
    ((clearLocation rs now).outbox = rs.outbox ∧
      getKey (clearLocation rs now).state.participants rs.participantId
        = some { p with location := none, lastSeen := now }) ∧
    ((updateStatus rs now status).outbox = rs.outbox ∧
      getKey (updateStatus rs now status).state.participants
          rs.participantId
        = some { p with status := status, lastSeen := now }) ∧
    ((updateIndoorPosition rs now indoor).outbox = rs.outbox ∧
      getKey (updateIndoorPosition rs now indoor).state.participants
          rs.participantId
        = some { p with
            location := some (indoorUpdatedLocation now indoor p.location),
            lastSeen := now }) ∧
    ((addWaypoint rs w).outbox = rs.outbox ∧
      (addWaypoint rs w).state.waypoints = rs.state.waypoints ++ [w]) ∧
    ((removeWaypoint rs wid).outbox = rs.outbox ∧
      (removeWaypoint rs wid).state.waypoints
        = rs.state.waypoints.filter (fun x => x.id != wid)) ∧
    (onOpen (addWaypoint (updateLocation rs now location) w)).outbox
      = rs.outbox ++ [SyncMessage.request_state] := by
  refine ⟨⟨?_, ?_⟩, ⟨?_, ?_⟩, ⟨?_, ?_⟩, ⟨?_, ?_⟩, ⟨?_, ?_⟩, ⟨?_, ?_⟩, ?_⟩ <;>
    simp [updateLocation, clearLocation, updateStatus, updateIndoorPosition,
      addWaypoint, removeWaypoint, hp, onOpen, send, hconn,
      getKey_setKey_self]

/-- C5 (witness): the amended theorem instantiated at the disconnected
session obtained from `sessionP1`. -/
theorem c5_disconnected_sends_dropped_witness :
    ((updateLocation (onClose sessionP1) 12 locT2).outbox
        = (onClose sessionP1).outbox ∧
      getKey (updateLocation (onClose sessionP1) 12 locT2).state.participants
          (onClose sessionP1).participantId
        = some { participantP1 with location := some locT2, lastSeen := 12 }) ∧
    ((clearLocation (onClose sessionP1) 12).outbox
        = (onClose sessionP1).outbox ∧
      getKey (clearLocation (onClose sessionP1) 12).state.participants
          (onClose sessionP1).participantId
        = some { participantP1 with location := none, lastSeen := 12 }) ∧
    ((updateStatus (onClose sessionP1) 12 "away").outbox
        = (onClose sessionP1).outbox ∧
      getKey (updateStatus (onClose sessionP1) 12 "away").state.participants
          (onClose sessionP1).participantId
        = some { participantP1 with status := "away", lastSeen := 12 }) ∧
    ((updateIndoorPosition (onClose sessionP1) 12 ⟨1, 2, 3⟩).outbox
        = (onClose sessionP1).outbox ∧
      getKey (updateIndoorPosition (onClose sessionP1) 12
          ⟨1, 2, 3⟩).state.participants (onClose sessionP1).participantId
        = some { participantP1 with
            location := some (indoorUpdatedLocation 12 ⟨1, 2, 3⟩
              participantP1.location),
            lastSeen := 12 }) ∧
    ((addWaypoint (onClose sessionP1) waypointW1).outbox
        = (onClose sessionP1).outbox ∧
      (addWaypoint (onClose sessionP1) waypointW1).state.waypoints
        = (onClose sessionP1).state.waypoints ++ [waypointW1]) ∧
    ((removeWaypoint (onClose sessionP1) "w1").outbox
        = (onClose sessionP1).outbox ∧
      (removeWaypoint (onClose sessionP1) "w1").state.waypoints
        = (onClose sessionP1).state.waypoints.filter
            (fun x => x.id != "w1")) ∧
    (onOpen (addWaypoint (updateLocation (onClose sessionP1) 12 locT2)
        waypointW1)).outbox
      = (onClose sessionP1).outbox ++ [SyncMessage.request_state] :=
  c5_disconnected_sends_dropped (onClose sessionP1) 12 locT2 "away"
    ⟨1, 2, 3⟩ waypointW1 "w1" participantP1 rfl (by decide)

/-! ### C6: a client never merges itself out on `full_state` -/

/-- C6: if the session's own participant id is registered locally, then
after applying any received `full_state` snapshot — in particular one
lacking that id — the own entry is present again with its local value. -/
theorem c6_full_state_keeps_self (selfId : String) (now : Nat)
    (s st : RoomState) (p : ParticipantState)
    (h : getKey s.participants selfId = some p) :
    getKey (handleMessage selfId now (.full_state st) s).participants selfId
      = some p := by
  simp [handleMessage, h, getKey_setKey_self]

/-- A full-state snapshot that lacks participant `p1`. -/
def snapshotNoP1 : RoomState :=
  { id := "r2", slug := "38c3-crew", name := "38c3-crew", createdAt := 0,
    participants := [("p2", participantP2)], waypoints := [] }

/-- C6 (witness): `p1` is registered locally, the received snapshot lacks
`p1`, and after the merge `p1` is present with its local value. -/
theorem c6_full_state_keeps_self_witness :
    getKey (handleMessage "p1" 9 (.full_state snapshotNoP1)
        roomWithP1).participants "p1" = some participantP1 :=
  c6_full_state_keeps_self "p1" 9 roomWithP1 snapshotNoP1 participantP1
    (by decide)

/-! ### C7: durable-cache read failure is non-fatal -/

/-- C7: when the durable-cache read fails — the storage read throws or
the stored payload does not parse — the session starts from
`createInitialState`, which has no participants and no waypoints. -/
theorem c7_load_failure_cold_start (slug freshId : String) (now : Nat)
    (read : Except Unit (Option String))
    (parse : String → Except Unit RoomState)
    (h : read = .error () ∨
      ∃ stored, read = .ok (some stored) ∧ parse stored = .error ()) :
    initialSessionState slug freshId now read parse
        = createInitialState slug freshId now ∧
    (initialSessionState slug freshId now read parse).participants = [] ∧
    (initialSessionState slug freshId now read parse).waypoints = [] := by
  have hload : loadState read parse = none := by
    rcases h with h | ⟨stored, hr, hp⟩
    · simp [loadState, h]
    · simp [loadState, hr, hp]
  refine ⟨?_, ?_, ?_⟩ <;>
    simp [initialSessionState, hload, createInitialState]

/-- C7 (witness): a storage read that throws yields the empty initial
state. -/
theorem c7_load_failure_cold_start_witness :
    initialSessionState "38c3-crew" "r9" 3 (.error ()) (fun _ => .error ())
        = createInitialState "38c3-crew" "r9" 3 ∧
    (initialSessionState "38c3-crew" "r9" 3 (.error ())
        (fun _ => .error ())).participants = [] ∧
    (initialSessionState "38c3-crew" "r9" 3 (.error ())
        (fun _ => .error ())).waypoints = [] :=
  c7_load_failure_cold_start "38c3-crew" "r9" 3 (.error ())
    (fun _ => .error ()) (Or.inl rfl)

/-! ### C8: which mutations stamp `lastSeen` -/

/-- C8 (counterexample): the claim says adding or removing a waypoint
stamps `lastSeen` on the affected participant.  `addWaypoint` and
`removeWaypoint` leave the participant registry — including every
`lastSeen` field — completely unchanged (they do not even receive a
clock), so the claim is false as stated. -/
theorem c8_waypoint_mutations_skip_lastSeen :
    (addWaypoint sessionP1 waypointW1).state.participants
        = sessionP1.state.participants ∧
    (removeWaypoint sessionP1 "w1").state.participants
        = sessionP1.state.participants ∧
    ((getKey (addWaypoint sessionP1 waypointW1).state.participants
        "p1").map (fun q => q.lastSeen)) = some 5 := by decide

/-- C8 (amended): `updateLocation`, `clearLocation`, `updateStatus` and
`updateIndoorPosition` stamp `lastSeen` on the session's own participant,
but `addWaypoint` and `removeWaypoint` leave the participant registry
unchanged. -/
theorem c8_lastSeen_stamping (rs : RoomSync) (now : Nat)
    (location : LocationState) (status : String) (indoor : IndoorTriple)
    (w : WaypointState) (wid : String) (p : ParticipantState)
    (h : getKey rs.state.participants rs.participantId = some p) :
    ((getKey (updateLocation rs now location).state.participants
        rs.participantId).map (fun q => q.lastSeen) = some now) ∧
    ((getKey (clearLocation rs now).state.participants
        rs.participantId).map (fun q => q.lastSeen) = some now) ∧
    ((getKey (updateStatus rs now status).state.participants
        rs.participantId).map (fun q => q.lastSeen) = some now) ∧
    ((getKey (updateIndoorPosition rs now indoor).state.participants
        rs.participantId).map (fun q => q.lastSeen) = some now) ∧
    (addWaypoint rs w).state.participants = rs.state.participants ∧
    (removeWaypoint rs wid).state.participants = rs.state.participants := by
  refine ⟨?_, ?_, ?_, ?_, ?_, ?_⟩ <;>
    simp [updateLocation, clearLocation, updateStatus, updateIndoorPosition,
      addWaypoint, removeWaypoint, send_state, h, getKey_setKey_self]

/-- C8 (witness): the amended theorem instantiated at `sessionP1`. -/
theorem c8_lastSeen_stamping_witness :
    ((getKey (updateLocation sessionP1 12 locT2).state.participants
        sessionP1.participantId).map (fun q => q.lastSeen) = some 12) ∧
    ((getKey (clearLocation sessionP1 12).state.participants
        sessionP1.participantId).map (fun q => q.lastSeen) = some 12) ∧
    ((getKey (updateStatus sessionP1 12 "away").state.participants
        sessionP1.participantId).map (fun q => q.lastSeen) = some 12) ∧
    ((getKey (updateIndoorPosition sessionP1 12 ⟨1, 2, 3⟩).state.participants
        sessionP1.participantId).map (fun q => q.lastSeen) = some 12) ∧
    (addWaypoint sessionP1 waypointW1).state.participants
        = sessionP1.state.participants ∧
    (removeWaypoint sessionP1 "w1").state.participants
        = sessionP1.state.participants :=
  c8_lastSeen_stamping sessionP1 12 locT2 "away" ⟨1, 2, 3⟩ waypointW1 "w1"
    participantP1 (by decide)

/-! ### C9: messages for unregistered participants are ignored -/

/-- C9: a `location` or `status` message whose `participantId` is not in
the registry leaves the room state unchanged — no entry is created and no
field is modified. -/
theorem c9_unknown_participant_ignored (selfId pid : String) (now : Nat)
    (s : RoomState) (location : Option LocationState) (status : String)
    (h : getKey s.participants pid = none) :
    handleMessage selfId now (.location pid location) s = s ∧
    handleMessage selfId now (.status pid status) s = s := by
  constructor <;> simp [handleMessage, h]

/-- C9 (witness): location and status messages for the unknown id `zz`
leave `roomWithP1` unchanged. -/
theorem c9_unknown_participant_ignored_witness :
    handleMessage "p1" 9 (.location "zz" (some locT1)) roomWithP1
        = roomWithP1 ∧
    handleMessage "p1" 9 (.status "zz" "away") roomWithP1 = roomWithP1 :=
  c9_unknown_participant_ignored "p1" "zz" 9 roomWithP1 (some locT1) "away"
    (by decide)

/-! ### C10: `updateIndoorPosition` -/

/-- C10: when the own participant is registered, `updateIndoorPosition`
stores a location whose source is `manual`, whose timestamp is the call
time and whose indoor field carries the given `{level, x, y}` triple; if
no location existed it is fabricated with latitude 0, longitude 0 and
accuracy 0, and otherwise the previous coordinates are kept. -/
theorem c10_indoor_position (rs : RoomSync) (now : Nat)
    (indoor : IndoorTriple) (p : ParticipantState)
    (h : getKey rs.state.participants rs.participantId = some p) :
    ∃ q : ParticipantState,
      getKey (updateIndoorPosition rs now indoor).state.participants
          rs.participantId = some q ∧
      q.lastSeen = now ∧
      ∃ l : LocationState, q.location = some l ∧
        l.source = "manual" ∧ l.timestamp = now ∧
        l.indoor = some { level := indoor.level, x := indoor.x,
                          y := indoor.y, spaceName := none } ∧
        (p.location = none →
          l.latitude = 0 ∧ l.longitude = 0 ∧ l.accuracy = 0) ∧
        (∀ prev, p.location = some prev →
          l.latitude = prev.latitude ∧ l.longitude = prev.longitude ∧
          l.accuracy = prev.accuracy) := by
  have hg : getKey (updateIndoorPosition rs now indoor).state.participants
      rs.participantId
      = some { p with
          location := some (indoorUpdatedLocation now indoor p.location),
          lastSeen := now } := by
    simp [updateIndoorPosition, h, send_state, getKey_setKey_self]
  refine ⟨_, hg, rfl, indoorUpdatedLocation now indoor p.location, rfl,
    rfl, rfl, rfl, fun hn => ?_, fun prev hprev => ?_⟩
  · rw [hn]
    exact ⟨rfl, rfl, rfl⟩
  · rw [hprev]
    exact ⟨rfl, rfl, rfl⟩

/-- C10 (witness): `updateIndoorPosition` on `sessionP1`, whose own
participant has no location, fabricates the zeroed manual location
carrying the given indoor triple. -/
theorem c10_indoor_position_witness :
    ∃ q : ParticipantState,
      getKey (updateIndoorPosition sessionP1 5 ⟨1, 2, 3⟩).state.participants
          sessionP1.participantId = some q ∧
      q.lastSeen = 5 ∧
      ∃ l : LocationState, q.location = some l ∧
        l.source = "manual" ∧ l.timestamp = 5 ∧
        l.indoor = some { level := 1, x := 2, y := 3, spaceName := none } ∧
        (participantP1.location = none →
          l.latitude = 0 ∧ l.longitude = 0 ∧ l.accuracy = 0) ∧
        (∀ prev, participantP1.location = some prev →
          l.latitude = prev.latitude ∧ l.longitude = prev.longitude ∧
          l.accuracy = prev.accuracy) :=
  c10_indoor_position sessionP1 5 ⟨1, 2, 3⟩ participantP1 (by decide)

end Rmaps
